import Mathlib

/-!
Verification development for the v4l device-binding library.

The format data model and its conversions are embedded from
`src/capture/format.rs`. The device handle, buffer pool and streaming
session are not part of the provided source excerpt; those components are
modelled from the specification (sections 4.1 to 4.3), as marked in the
doc comments below. Machine integers (`u32`, `u64`) are embedded as `Nat`;
none of the verified operations perform wrapping arithmetic on them.
-/

namespace V4l

/-- Modelled from the spec: the `FieldOrder` enum of the kernel video
subsystem (the sources `src/field_order.rs` are not in the excerpt; the
discriminants are the `V4L2_FIELD_*` constants of the kernel ioctl
protocol, consumed as-is per section 6 of the spec). -/
inductive FieldOrder where
  | Any
  | None
  | Top
  | Bottom
  | Interlaced
  | SequentialTopBottom
  | SequentialBottomTop
  | Alternate
  | InterlacedTopBottom
  | InterlacedBottomTop
deriving DecidableEq

/-- The value of `field_order as u32` in the source. -/
def FieldOrder.toU32 : FieldOrder → Nat
  | .Any => 0
  | .None => 1
  | .Top => 2
  | .Bottom => 3
  | .Interlaced => 4
  | .SequentialTopBottom => 5
  | .SequentialBottomTop => 6
  | .Alternate => 7
  | .InterlacedTopBottom => 8
  | .InterlacedBottomTop => 9

/-- Modelled from the spec: `FieldOrder::try_from(u32)`, failing on any
value that is not a declared discriminant. -/
def FieldOrder.tryFrom : Nat → Option FieldOrder
  | 0 => some .Any
  | 1 => some .None
  | 2 => some .Top
  | 3 => some .Bottom
  | 4 => some .Interlaced
  | 5 => some .SequentialTopBottom
  | 6 => some .SequentialBottomTop
  | 7 => some .Alternate
  | 8 => some .InterlacedTopBottom
  | 9 => some .InterlacedBottomTop
  | _ => none

/-- Modelled from the spec: the `Colorspace` enum (the sources
`src/colorspace.rs` are not in the excerpt; discriminants are the
`V4L2_COLORSPACE_*` constants). -/
inductive Colorspace where
  | Default
  | SMPTE170M
  | SMPTE240M
  | REC709
  | BT878
  | SystemM470
  | SystemBG470
  | JPEG
  | SRGB
  | AdobeRGB
  | BT2020
  | Raw
  | DCIP3
deriving DecidableEq

/-- The value of `colorspace as u32` in the source. -/
def Colorspace.toU32 : Colorspace → Nat
  | .Default => 0
  | .SMPTE170M => 1
  | .SMPTE240M => 2
  | .REC709 => 3
  | .BT878 => 4
  | .SystemM470 => 5
  | .SystemBG470 => 6
  | .JPEG => 7
  | .SRGB => 8
  | .AdobeRGB => 9
  | .BT2020 => 10
  | .Raw => 11
  | .DCIP3 => 12

/-- Modelled from the spec: `Colorspace::try_from(u32)`, failing on any
value that is not a declared discriminant. -/
def Colorspace.tryFrom : Nat → Option Colorspace
  | 0 => some .Default
  | 1 => some .SMPTE170M
  | 2 => some .SMPTE240M
  | 3 => some .REC709
  | 4 => some .BT878
  | 5 => some .SystemM470
  | 6 => some .SystemBG470
  | 7 => some .JPEG
  | 8 => some .SRGB
  | 9 => some .AdobeRGB
  | 10 => some .BT2020
  | 11 => some .Raw
  | 12 => some .DCIP3
  | _ => none

/-- Modelled from the spec: the `Quantization` enum (the source file is
not in the excerpt; discriminants are the `V4L2_QUANTIZATION_*`
constants). -/
inductive Quantization where
  | Default
  | FullRange
  | LimitedRange
deriving DecidableEq

/-- The value of `quantization as u32` in the source. -/
def Quantization.toU32 : Quantization → Nat
  | .Default => 0
  | .FullRange => 1
  | .LimitedRange => 2

/-- Modelled from the spec: `Quantization::try_from(u32)`, failing on any
value that is not a declared discriminant. -/
def Quantization.tryFrom : Nat → Option Quantization
  | 0 => some .Default
  | 1 => some .FullRange
  | 2 => some .LimitedRange
  | _ => none

/-- Modelled from the spec: `FourCC`, a four character code stored as four
bytes (the sources `src/fourcc.rs` are not in the excerpt). -/
structure FourCC where
  b0 : Fin 256
  b1 : Fin 256
  b2 : Fin 256
  b3 : Fin 256
deriving DecidableEq

/-- Modelled from the spec: `u32::from(FourCC)`, the little-endian
reassembly of the four bytes. -/
def FourCC.toU32 (c : FourCC) : Nat :=
  c.b0.val + 256 * (c.b1.val + 256 * (c.b2.val + 256 * c.b3.val))

/-- Modelled from the spec: `FourCC::from(u32)`, splitting the code into
its four little-endian bytes. -/
def FourCC.ofU32 (n : Nat) : FourCC :=
  ⟨⟨n % 256, by omega⟩, ⟨n / 256 % 256, by omega⟩,
   ⟨n / 256 / 256 % 256, by omega⟩, ⟨n / 256 / 256 / 256 % 256, by omega⟩⟩

theorem FourCC.ofU32_toU32 (c : FourCC) : FourCC.ofU32 c.toU32 = c := by
  obtain ⟨⟨a, ha⟩, ⟨b, hb⟩, ⟨x, hx⟩, ⟨y, hy⟩⟩ := c
  simp only [FourCC.toU32, FourCC.ofU32, FourCC.mk.injEq, Fin.mk.injEq]
  refine ⟨?_, ?_, ?_, ?_⟩ <;> omega

/-- The streaming format struct of `src/capture/format.rs`. -/
structure Format where
  width : Nat
  height : Nat
  field_order : FieldOrder
  fourcc : FourCC
  stride : Nat
  size : Nat
  colorspace : Colorspace
  quantization : Quantization
deriving DecidableEq

/-- `Format::new` from `src/capture/format.rs`. -/
def Format.new (width height : Nat) (fourcc : FourCC) : Format :=
  { width := width
    height := height
    field_order := FieldOrder.Any
    fourcc := fourcc
    stride := 0
    size := 0
    colorspace := Colorspace.Default
    quantization := Quantization.Default }

/-- The `v4l2_pix_format` struct of the kernel ioctl interface (modelled
from the spec: the generated `v4l_sys` bindings are not in the excerpt;
the single-planar kernel struct has exactly these twelve fields). -/
structure v4l2_pix_format where
  width : Nat
  height : Nat
  pixelformat : Nat
  field : Nat
  bytesperline : Nat
  sizeimage : Nat
  colorspace : Nat
  priv_ : Nat
  flags : Nat
  ycbcr_enc : Nat
  quantization : Nat
  xfer_func : Nat
deriving DecidableEq

/-- `mem::zeroed::<v4l2_pix_format>()` in `Into<v4l2_pix_format>`. -/
def zeroedPix : v4l2_pix_format :=
  ⟨0, 0, 0, 0, 0, 0, 0, 0, 0, 0, 0, 0⟩

/-- `Into<v4l2_pix_format> for Format` from `src/capture/format.rs`:
zero the struct, then write exactly eight fields. -/
def formatIntoPix (f : Format) : v4l2_pix_format :=
  { zeroedPix with
    width := f.width
    height := f.height
    field := f.field_order.toU32
    pixelformat := f.fourcc.toU32
    bytesperline := f.stride
    sizeimage := f.size
    colorspace := f.colorspace.toU32
    quantization := f.quantization.toU32 }

/-- `From<v4l2_pix_format> for Format` from `src/capture/format.rs`.
The source calls `.expect(..)` on each `try_from`, aborting the program
on an invalid discriminant; the abort is embedded as `none`. -/
def formatFromPix (p : v4l2_pix_format) : Option Format :=
  match FieldOrder.tryFrom p.field, Colorspace.tryFrom p.colorspace,
      Quantization.tryFrom p.quantization with
  | some fo, some cs, some q =>
      some
        { width := p.width
          height := p.height
          field_order := fo
          fourcc := FourCC.ofU32 p.pixelformat
          stride := p.bytesperline
          size := p.sizeimage
          colorspace := cs
          quantization := q }
  | _, _, _ => none

theorem fieldOrder_tryFrom_toU32 (v : FieldOrder) :
    FieldOrder.tryFrom v.toU32 = some v := by
  cases v <;> rfl

theorem colorspace_tryFrom_toU32 (v : Colorspace) :
    Colorspace.tryFrom v.toU32 = some v := by
  cases v <;> rfl

theorem quantization_tryFrom_toU32 (v : Quantization) :
    Quantization.tryFrom v.toU32 = some v := by
  cases v <;> rfl

/-- C9: converting a `Format` into a `v4l2_pix_format` and back yields the
original `Format` field-for-field, and the four fields of the intermediate
struct other than the eight written ones are zero. -/
theorem format_pix_roundtrip (f : Format) :
    formatFromPix (formatIntoPix f) = some f ∧
    (formatIntoPix f).priv_ = 0 ∧ (formatIntoPix f).flags = 0 ∧
    (formatIntoPix f).ycbcr_enc = 0 ∧ (formatIntoPix f).xfer_func = 0 := by
  refine ⟨?_, rfl, rfl, rfl, rfl⟩
  obtain ⟨w, h, fo, cc, st, sz, cs, q⟩ := f
  simp [formatFromPix, formatIntoPix, zeroedPix, fieldOrder_tryFrom_toU32,
    colorspace_tryFrom_toU32, quantization_tryFrom_toU32, FourCC.ofU32_toU32]

/-- A driver-returned pixel format whose `field` value is not a declared
`FieldOrder` discriminant. -/
def pixBadField : v4l2_pix_format :=
  { zeroedPix with width := 640, height := 480, field := 100 }

/-- C7 counterexample: `From<v4l2_pix_format> for Format` does not survive
every possible field value — at `field = 100` the conversion aborts
(`.expect("Invalid field")`, embedded as `none`), refuting the claim that
the construction never aborts for every possible input struct. -/
theorem formatFromPix_aborts_on_bad_field :
    formatFromPix pixBadField = none := rfl

/-- C7 amended: the conversion never aborts provided the `field`,
`colorspace` and `quantization` values of the input struct are valid enum
discriminants; under those hypotheses it yields a `Format` value. -/
theorem formatFromPix_total_on_valid (p : v4l2_pix_format)
    (hf : (FieldOrder.tryFrom p.field).isSome = true)
    (hc : (Colorspace.tryFrom p.colorspace).isSome = true)
    (hq : (Quantization.tryFrom p.quantization).isSome = true) :
    (formatFromPix p).isSome = true := by
  unfold formatFromPix
  cases hf' : FieldOrder.tryFrom p.field with
  | none => rw [hf'] at hf; simp at hf
  | some fo =>
    cases hc' : Colorspace.tryFrom p.colorspace with
    | none => rw [hc'] at hc; simp at hc
    | some cs =>
      cases hq' : Quantization.tryFrom p.quantization with
      | none => rw [hq'] at hq; simp at hq
      | some q => simp

/-- A driver-returned pixel format whose enum discriminants are all
valid. -/
def pixGoodField : v4l2_pix_format :=
  { zeroedPix with
    width := 640
    height := 480
    field := 1
    colorspace := 8
    quantization := 1 }

/-- Witness for the amended C7 theorem at a concrete valid struct. -/
theorem formatFromPix_total_on_valid_witness :
    (formatFromPix pixGoodField).isSome = true :=
  formatFromPix_total_on_valid pixGoodField (by decide) (by decide) (by decide)

/-- The numeric value of a digit string, most significant digit first. -/
def digitsToNat (cs : List Char) : Nat :=
  cs.foldl (fun a c => a * 10 + (c.toNat - 48)) 0

/-- `str.parse::<u64>()` as used by the examples: an optional leading
plus sign, then one or more ASCII decimal digits, rejected on overflow
past `u64::MAX`. -/
def parse_u64 (s : String) : Option Nat :=
  let ds := match s.data with
    | '+' :: rest => rest
    | cs => cs
  if ds ≠ [] ∧ ds.all Char.isDigit ∧ digitsToNat ds < 2 ^ 64 then
    some (digitsToNat ds)
  else none

/-- The device-path resolution shared by the examples (lines 23 to 29 of
`examples/device_capture.rs` and of `examples/framesizes_output.rs`):
take the argument value or the given default, and prefix `/dev/video`
when the string parses as a `u64`. -/
def resolve_path (deflt : String) (arg : Option String) : String :=
  let path := arg.getD deflt
  if (parse_u64 path).isSome then "/dev/video" ++ path else path

/-- `examples/device_capture.rs`: default device node `/dev/video0`. -/
def device_capture_path (arg : Option String) : String :=
  resolve_path "/dev/video0" arg

/-- `examples/framesizes_output.rs`: default device node `/dev/video1`. -/
def framesizes_output_path (arg : Option String) : String :=
  resolve_path "/dev/video1" arg

/-- C8 counterexample: the claim says the default path is `/dev/video0`
whenever no argument is given, but `examples/framesizes_output.rs`
(one of the two cited programs) defaults to `/dev/video1`. -/
theorem framesizes_default_not_video0 :
    framesizes_output_path Option.none = "/dev/video1" ∧
    ("/dev/video1" : String) ≠ "/dev/video0" := by
  constructor
  · rfl
  · decide

/-- C8 amended: for every argument string `s`, both cited examples use
`/dev/video` ++ `s` when `s` parses as a `u64` and `s` itself otherwise;
with no argument, `device_capture` uses `/dev/video0` while
`framesizes_output` uses `/dev/video1`. -/
theorem device_path_resolution (s : String) :
    ((parse_u64 s).isSome = true →
      device_capture_path (some s) = "/dev/video" ++ s ∧
      framesizes_output_path (some s) = "/dev/video" ++ s) ∧
    ((parse_u64 s).isSome = false →
      device_capture_path (some s) = s ∧
      framesizes_output_path (some s) = s) ∧
    device_capture_path Option.none = "/dev/video0" ∧
    framesizes_output_path Option.none = "/dev/video1" := by
  refine ⟨fun h => ⟨?_, ?_⟩, fun h => ⟨?_, ?_⟩, rfl, rfl⟩ <;>
    simp [device_capture_path, framesizes_output_path, resolve_path, h]

/-- Witness for the amended C8 theorem: the numeric argument `2` resolves
to `/dev/video2` and the non-numeric argument `/dev/video5` is used
verbatim. -/
theorem device_path_resolution_witness :
    (device_capture_path (some "2") = "/dev/video" ++ "2" ∧
      framesizes_output_path (some "2") = "/dev/video" ++ "2") ∧
    (device_capture_path (some "/dev/video5") = "/dev/video5" ∧
      framesizes_output_path (some "/dev/video5") = "/dev/video5") :=
  ⟨(device_path_resolution "2").1 (by decide),
   (device_path_resolution "/dev/video5").2.1 (by decide)⟩

/-- The argument lookup of `clap::ArgMatches::value_of`: parsed values are
stored under the name the argument was registered with
(`Arg::with_name`), and a lookup returns the first value stored under
exactly the queried name, or nothing. -/
def value_of (ms : List (String × String)) (name : String) :
    Option String :=
  (ms.find? (fun kv => kv.1 == name)).map (fun kv => kv.2)

/-- `examples/forward_video.rs` lines 13 to 20 and 31 to 41: the capture
argument is registered under the name `capture_device`, but the value is
looked up under the name `capture-device`; the result falls back to
`/dev/video0` and is then resolved like the other examples. -/
def forward_capture_path (ms : List (String × String)) : String :=
  resolve_path "/dev/video0" (value_of ms "capture-device")

/-- C10: whatever value is supplied for the capture-device argument, the
lookup under the unregistered name `capture-device` misses, so the
capture path of `forward_video` is always `/dev/video0`. -/
theorem forward_capture_path_constant (ms : List (String × String))
    (hreg : ∀ kv ∈ ms,
      kv.1 = "capture_device" ∨ kv.1 = "output-device") :
    forward_capture_path ms = "/dev/video0" := by
  have hmiss : value_of ms "capture-device" = Option.none := by
    unfold value_of
    rw [List.find?_eq_none.mpr]
    · rfl
    · intro kv hkv
      rcases hreg kv hkv with h | h <;> rw [h] <;> decide
  rw [forward_capture_path, hmiss]
  rfl

/-- Witness for C10: with the capture argument supplied as `2`, the
capture path is still `/dev/video0`. -/
theorem forward_capture_path_constant_witness :
    forward_capture_path [("capture_device", "2")] = "/dev/video0" :=
  forward_capture_path_constant [("capture_device", "2")] (by decide)

/-- The distinct error kinds of the error taxonomy (spec section 7). -/
inductive VError where
  | device
  | resource
  | protocolViolation
  | ioError
deriving DecidableEq

/-- Modelled from the spec: the kernel driver behind the ioctl interface
(spec sections 4.1 to 4.3; the device-handle and buffer sources are not
in the excerpt). `walign`/`halign` are the hardware dimension alignments,
`supported` the accepted pixel encodings with `defaultcc` the substitute
for an unsupported one, `bpp` the bytes per pixel from which the driver
derives stride and image size, `maxBuffers` the largest buffer count the
device supports, `mapOk i` whether mapping buffer `i` succeeds, and
`acceptStart` whether the driver accepts the stream-on command. -/
structure Driver where
  walign : Nat
  halign : Nat
  supported : List FourCC
  defaultcc : FourCC
  bpp : Nat
  maxBuffers : Nat
  mapOk : Nat → Bool
  acceptStart : Bool

/-- Rounding a dimension down to the hardware alignment. -/
def alignDown (x a : Nat) : Nat := x / a * a

/-- Modelled from the spec: the driver's format adjustment during
`set_format` (spec 4.1: dimensions rounded to hardware alignment,
encoding replaced by a supported one when needed, a concrete field order
substituted for `Any`, stride and image size derived from the adjusted
dimensions). -/
def negotiate (d : Driver) (f : Format) : Format :=
  let w := alignDown f.width d.walign
  let h := alignDown f.height d.halign
  let cc := if f.fourcc ∈ d.supported then f.fourcc else d.defaultcc
  { width := w
    height := h
    field_order :=
      if f.field_order = FieldOrder.Any then FieldOrder.None
      else f.field_order
    fourcc := cc
    stride := w * d.bpp
    size := w * d.bpp * h
    colorspace := f.colorspace
    quantization := f.quantization }

/-- Modelled from the spec: the device handle (spec 4.1), holding the
driver and the currently active format; `streaming` records whether a
streaming session is active (`set_format` is rejected mid-stream). -/
structure DeviceState where
  driver : Driver
  current : Format
  streaming : Bool

/-- Modelled from the spec: `set_format` (spec 4.1) — fails on a device
in active streaming, otherwise applies the driver-adjusted format and
returns the effective format together with the updated device. -/
def set_format (s : DeviceState) (f : Format) :
    Except VError (Format × DeviceState) :=
  if s.streaming then Except.error VError.device
  else
    let eff := negotiate s.driver f
    Except.ok (eff, { s with current := eff })

/-- Modelled from the spec: `get_format` (spec 4.1) — queries the
currently active format. -/
def get_format (s : DeviceState) : Format := s.current

theorem alignDown_idem (x a : Nat) :
    alignDown (alignDown x a) a = alignDown x a := by
  unfold alignDown
  rcases Nat.eq_zero_or_pos a with h | h
  · simp [h]
  · rw [Nat.mul_div_cancel _ h]

/-- C6: format negotiation is idempotent — applying the driver's
adjustment to an already adjusted format changes nothing, so
`set_format(set_format(f))` yields the same effective format as
`set_format(f)`. -/
theorem negotiate_idem_helper (d : Driver) (f : Format) :
    negotiate d (negotiate d f) = negotiate d f := by
  have hne : FieldOrder.None ≠ FieldOrder.Any := by decide
  by_cases hA : f.field_order = FieldOrder.Any <;>
    by_cases hC : f.fourcc ∈ d.supported <;>
      by_cases hD : d.defaultcc ∈ d.supported <;>
        simp [negotiate, hA, hC, hD, hne, alignDown_idem]

/-- C1: a successful `set_format` returns exactly the driver-adjusted
effective format (which may differ from the request in any field), and
`get_format` on the resulting device state returns that same effective
format. -/
theorem set_format_effective (s : DeviceState) (f eff : Format)
    (s' : DeviceState) (h : set_format s f = Except.ok (eff, s')) :
    eff = negotiate s.driver f ∧ get_format s' = eff := by
  unfold set_format at h
  by_cases hs : s.streaming
  · simp [hs] at h
  · simp only [hs, Bool.false_eq_true, if_false, Except.ok.injEq,
      Prod.mk.injEq] at h
    obtain ⟨rfl, rfl⟩ := h
    exact ⟨rfl, rfl⟩

/-- A concrete sample encoding: the code `YUYV`. -/
def ccYUYV : FourCC := ⟨⟨89, by decide⟩, ⟨85, by decide⟩, ⟨89, by decide⟩, ⟨86, by decide⟩⟩

/-- A concrete driver that clamps heights to multiples of 360. -/
def drvClamp : Driver :=
  { walign := 32
    halign := 360
    supported := [ccYUYV]
    defaultcc := ccYUYV
    bpp := 2
    maxBuffers := 2
    mapOk := fun _ => true
    acceptStart := true }

/-- A concrete device state holding that driver. -/
def devClamp : DeviceState :=
  { driver := drvClamp
    current := Format.new 0 0 ccYUYV
    streaming := false }

/-- The effective format the clamping driver applies to a 640 by 480
request: the height is clamped to 360. -/
def effClamp : Format :=
  { width := 640
    height := 360
    field_order := FieldOrder.None
    fourcc := ccYUYV
    stride := 1280
    size := 460800
    colorspace := Colorspace.Default
    quantization := Quantization.Default }

/-- Witness for C1: requesting 640 by 480 from the clamping driver, the
format returned by `set_format` is the clamped 640 by 360 one, and
`get_format` afterwards agrees on it. -/
theorem set_format_effective_witness :
    effClamp = negotiate devClamp.driver (Format.new 640 480 ccYUYV) ∧
    get_format { devClamp with current := effClamp } = effClamp :=
  set_format_effective devClamp (Format.new 640 480 ccYUYV) effClamp
    { devClamp with current := effClamp } rfl

/-- C6: format negotiation is idempotent — submitting the effective
format returned by a successful `set_format` back to `set_format` yields
that same effective format again (and leaves the device on it). -/
theorem set_format_idem (s : DeviceState) (f eff : Format)
    (s' : DeviceState) (h : set_format s f = Except.ok (eff, s')) :
    set_format s' eff = Except.ok (eff, s') := by
  unfold set_format at h ⊢
  by_cases hs : s.streaming
  · simp [hs] at h
  · simp only [hs, Bool.false_eq_true, if_false, Except.ok.injEq,
      Prod.mk.injEq] at h
    obtain ⟨rfl, rfl⟩ := h
    simp only [hs, Bool.false_eq_true, if_false, Except.ok.injEq,
      Prod.mk.injEq, negotiate_idem_helper]

/-- Witness for C6: re-submitting the clamped 640 by 360 format to the
clamping device returns the same format unchanged. -/
theorem set_format_idem_witness :
    set_format { devClamp with current := effClamp } effClamp =
      Except.ok (effClamp, { devClamp with current := effClamp }) :=
  set_format_idem devClamp (Format.new 640 480 ccYUYV) effClamp
    { devClamp with current := effClamp } rfl

/-- Modelled from the spec: the protocol-level state attached to each
buffer index (spec section 3). -/
inductive BufState where
  | idle
  | queued
  | dequeued
deriving DecidableEq

/-- Modelled from the spec: the buffer pool (spec 4.2), holding the
adopted buffer count and the tracked state of each buffer. -/
structure Pool where
  count : Nat
  bufs : List BufState
deriving DecidableEq

/-- Modelled from the spec: `with_buffers(device, count)` (spec 4.2) —
the driver grants `min count maxBuffers` buffers (requesting more than
the device supports yields the driver's maximum); construction fails if
the granted count is zero or if mapping any granted buffer fails, and
otherwise records all granted descriptors with state `Idle`. -/
def with_buffers (d : Driver) (count : Nat) : Except VError Pool :=
  let granted := min count d.maxBuffers
  if granted = 0 then Except.error VError.resource
  else if (List.range granted).all d.mapOk then
    Except.ok
      { count := granted, bufs := List.replicate granted BufState.idle }
  else Except.error VError.resource

/-- C2: a constructed pool adopts at most the requested count and never a
zero count; construction never fails merely because the driver grants
fewer buffers than requested (a positive grant with successful mappings
always constructs, adopting the granted count); and a zero grant fails. -/
theorem with_buffers_spec (d : Driver) (N : Nat) :
    (∀ p, with_buffers d N = Except.ok p → p.count ≤ N ∧ 0 < p.count) ∧
    (0 < min N d.maxBuffers →
      (List.range (min N d.maxBuffers)).all d.mapOk = true →
      ∃ p, with_buffers d N = Except.ok p ∧
        p.count = min N d.maxBuffers) ∧
    (min N d.maxBuffers = 0 →
      with_buffers d N = Except.error VError.resource) := by
  refine ⟨?_, ?_, ?_⟩
  · intro p hp
    unfold with_buffers at hp
    by_cases h0 : min N d.maxBuffers = 0
    · rw [if_pos h0] at hp
      exact absurd hp (by simp)
    · rw [if_neg h0] at hp
      by_cases hm : (List.range (min N d.maxBuffers)).all d.mapOk = true
      · rw [if_pos hm] at hp
        injection hp with hp
        subst hp
        exact ⟨Nat.min_le_left _ _, Nat.pos_of_ne_zero h0⟩
      · rw [if_neg hm] at hp
        exact absurd hp (by simp)
  · intro hpos hall
    refine ⟨⟨min N d.maxBuffers,
      List.replicate (min N d.maxBuffers) BufState.idle⟩, ?_, rfl⟩
    unfold with_buffers
    rw [if_neg (by omega), if_pos hall]
  · intro h0
    unfold with_buffers
    rw [if_pos h0]

/-- The pool granted by the clamping driver (maximum two buffers) on a
request for four. -/
def poolGranted : Pool := ⟨2, List.replicate 2 BufState.idle⟩

/-- A driver granting no buffers at all. -/
def drvNoBufs : Driver := { drvClamp with maxBuffers := 0 }

/-- Witness for C2: requesting four buffers from a device supporting two
constructs a pool of two buffers (not an error), and a device granting
zero buffers makes construction fail. -/
theorem with_buffers_spec_witness :
    (poolGranted.count ≤ 4 ∧ 0 < poolGranted.count) ∧
    (∃ p, with_buffers drvClamp 4 = Except.ok p ∧
      p.count = min 4 drvClamp.maxBuffers) ∧
    with_buffers drvNoBufs 4 = Except.error VError.resource :=
  ⟨(with_buffers_spec drvClamp 4).1 poolGranted rfl,
   (with_buffers_spec drvClamp 4).2.1 (by decide) rfl,
   (with_buffers_spec drvNoBufs 4).2.2 rfl⟩

/-- Modelled from the spec: the streaming session (spec 4.3), borrowing a
pool's buffer states and recording whether streaming is active. -/
structure Session where
  streaming : Bool
  bufs : List BufState
deriving DecidableEq

/-- A session freshly created over a pool: stopped, buffers as in the
pool (all `Idle` after construction). -/
def initSession (p : Pool) : Session := ⟨false, p.bufs⟩

/-- Modelled from the spec: `start()` (spec 4.3) — fails if already
streaming or if the driver rejects stream-on (in which case the buffer
states are reverted, i.e. the session is unchanged); otherwise queues
every buffer and marks the session streaming. -/
def start (d : Driver) (s : Session) : Except VError Session :=
  if s.streaming then Except.error VError.device
  else if d.acceptStart then
    Except.ok
      { streaming := true, bufs := s.bufs.map (fun _ => BufState.queued) }
  else Except.error VError.device

/-- Modelled from the spec: the implicit re-queue at the start of
`next_frame` (spec 4.3, capture direction) — the previously dequeued
buffer returns to the driver. -/
def requeue_prev (s : Session) : Session :=
  { s with
    bufs := s.bufs.map
      (fun b => if b = BufState.dequeued then BufState.queued else b) }

/-- Modelled from the spec: `next_frame()` (spec 4.3) — before `start()`
it fails fast with `ProtocolViolation` (no state change, no blocking);
otherwise it re-queues the previously dequeued buffer, then waits for the
driver to complete a buffer (`pick` is the index the driver reports,
necessarily a queued one), transitions it `Queued → Dequeued` and returns
its index; a driver-reported I/O failure surfaces as an error. -/
def next_frame (pick : Nat) (s : Session) :
    Except VError (Nat × Session) :=
  if s.streaming = false then Except.error VError.protocolViolation
  else
    let s1 := requeue_prev s
    if h : pick < s1.bufs.length then
      if s1.bufs.get ⟨pick, h⟩ = BufState.queued then
        Except.ok
          (pick, { s1 with bufs := s1.bufs.set pick BufState.dequeued })
      else Except.error VError.ioError
    else Except.error VError.ioError

/-- Modelled from the spec: `stop()` (spec 4.3) — when streaming, the
driver returns all outstanding buffers and every tracked state resets to
`Idle`; when already stopped it is a no-op, not an error. -/
def stop (s : Session) : Except VError Session :=
  if s.streaming then
    Except.ok
      { streaming := false, bufs := s.bufs.map (fun _ => BufState.idle) }
  else Except.ok s

/-- A successful session operation, as a step relation. -/
inductive Step (d : Driver) : Session → Session → Prop where
  | ofStart (s s' : Session) : start d s = Except.ok s' → Step d s s'
  | ofNext (pick i : Nat) (s s' : Session) :
      next_frame pick s = Except.ok (i, s') → Step d s s'
  | ofStop (s s' : Session) : stop s = Except.ok s' → Step d s s'

/-- The session states reachable from a freshly constructed pool by
successful operations. -/
inductive Reachable (d : Driver) (p : Pool) : Session → Prop where
  | init : Reachable d p (initSession p)
  | step {s s' : Session} :
      Reachable d p s → Step d s s' → Reachable d p s'

/-- The tracked state of buffer index `i`. -/
def bufState (s : Session) (i : Nat) : BufState :=
  s.bufs.getD i BufState.idle

/-- All buffer indices of a session. -/
def allIdx (s : Session) : Finset Nat := Finset.range s.bufs.length

/-- The indices owned by the driver: those in state `Queued`. -/
def driverOwned (s : Session) : Finset Nat :=
  (Finset.range s.bufs.length).filter
    (fun i => bufState s i = BufState.queued)

/-- The indices owned by the application: those in state `Idle` or
`Dequeued`. -/
def appOwned (s : Session) : Finset Nat :=
  (Finset.range s.bufs.length).filter
    (fun i => bufState s i = BufState.idle ∨
      bufState s i = BufState.dequeued)

/-- C3: at every reachable state of an active streaming session, the
buffer indices partition exactly into the `Queued` ones and the
`Idle`-or-`Dequeued` ones, with no index in both; since this holds at
every reachable state, every queue/dequeue step preserves it. -/
theorem streaming_partition (d : Driver) (p : Pool) (s : Session)
    (_hreach : Reachable d p s) (_hact : s.streaming = true) :
    driverOwned s ∪ appOwned s = allIdx s ∧
    Disjoint (driverOwned s) (appOwned s) := by
  constructor
  · ext i
    simp only [driverOwned, appOwned, allIdx, Finset.mem_union,
      Finset.mem_filter, Finset.mem_range]
    cases h : bufState s i <;> simp [h]
  · rw [Finset.disjoint_left]
    intro i hi hi'
    simp only [driverOwned, Finset.mem_filter] at hi
    simp only [appOwned, Finset.mem_filter] at hi'
    rcases hi' with ⟨_, h | h⟩ <;> rw [hi.2] at h <;>
      exact absurd h (by decide)

/-- The session state right after a successful `start` on the two-buffer
pool. -/
def sessActive : Session := ⟨true, [BufState.queued, BufState.queued]⟩

/-- Witness for C3: the state reached by starting a session over the
two-buffer pool satisfies the ownership partition. -/
theorem streaming_partition_witness :
    driverOwned sessActive ∪ appOwned sessActive = allIdx sessActive ∧
    Disjoint (driverOwned sessActive) (appOwned sessActive) :=
  streaming_partition drvClamp poolGranted sessActive
    (Reachable.step Reachable.init (Step.ofStart _ _ rfl)) rfl

/-- C4: calling `next_frame` on a session that has not been started fails
fast with `ProtocolViolation`; no successor state is produced, so the
session state is unchanged, and the blocking wait is never reached. -/
theorem next_frame_before_start (pick : Nat) (s : Session)
    (h : s.streaming = false) :
    next_frame pick s = Except.error VError.protocolViolation := by
  simp [next_frame, h]

/-- A freshly constructed, never started session over the two-buffer
pool. -/
def sessStopped : Session := initSession poolGranted

/-- Witness for C4: `next_frame` on the fresh stopped session returns the
`ProtocolViolation` error. -/
theorem next_frame_before_start_witness :
    next_frame 0 sessStopped = Except.error VError.protocolViolation :=
  next_frame_before_start 0 sessStopped rfl

/-- C5: `stop()` on a streaming session succeeds, clears the streaming
flag and resets every buffer's tracked state to `Idle`; `stop()` on an
already stopped session succeeds as a no-op, leaving the session
unchanged, rather than returning an error. -/
theorem stop_resets_and_idempotent (s : Session) :
    (s.streaming = true →
      ∃ s', stop s = Except.ok s' ∧ s'.streaming = false ∧
        ∀ b ∈ s'.bufs, b = BufState.idle) ∧
    (s.streaming = false → stop s = Except.ok s) := by
  constructor
  · intro h
    refine ⟨⟨false, s.bufs.map (fun _ => BufState.idle)⟩, ?_, rfl, ?_⟩
    · simp [stop, h]
    · intro b hb
      rw [List.mem_map] at hb
      obtain ⟨a, _, ha⟩ := hb
      exact ha.symm
  · intro h
    simp [stop, h]

/-- A mid-stream session with one dequeued and one queued buffer. -/
def sessMidStream : Session := ⟨true, [BufState.dequeued, BufState.queued]⟩

/-- Witness for C5: stopping the mid-stream session resets both buffers
to `Idle`, and stopping the fresh stopped session is a no-op success. -/
theorem stop_resets_and_idempotent_witness :
    (∃ s', stop sessMidStream = Except.ok s' ∧ s'.streaming = false ∧
      ∀ b ∈ s'.bufs, b = BufState.idle) ∧
    stop sessStopped = Except.ok sessStopped :=
  ⟨(stop_resets_and_idempotent sessMidStream).1 rfl,
   (stop_resets_and_idempotent sessStopped).2 rfl⟩

end V4l
